import Mathlib

/-!
Shallow embedding of `src/framework.rs` of the gpgpu-rs repository.

The repository wraps the external wgpu compute API. wgpu itself is an
external collaborator, so it is modelled at the capability interface the
repository invokes: descriptor records passed to creation calls, opaque
handle records for instances, adapters, devices and queues, and oracle
functions for adapter/device discovery. Every `Framework` method of the
source is translated as a pure Lean function; since each Rust method takes
`&self`, the embedding passes the receiver through explicitly and returns
it alongside the method's result, so frame properties are statable.
-/

namespace Gpgpu

/-- Model of `wgpu::Backends` (backend selection bitflags). -/
inductive Backends where
  | primary
  | secondary
  | all

/-- Model of `wgpu::PowerPreference`. -/
inductive PowerPreference where
  | lowPower
  | highPerformance

/-- Model of an opaque `wgpu::Surface` handle. -/
structure Surface where
  id : Nat

/-- Model of `wgpu::RequestAdapterOptions`. -/
structure RequestAdapterOptions where
  power_preference : PowerPreference
  force_fallback_adapter : Bool
  compatible_surface : Option Surface

/-- Model of `wgpu::Features` (a feature bitset). -/
structure Features where
  bits : Nat

/-- Model of `wgpu::Features::empty()`: the empty feature bitset. -/
def Features.empty : Features := { bits := 0 }

/-- Model of `wgpu::Limits`, kept at the granularity of the named limit
presets the external API offers. -/
inductive Limits where
  | defaults
  | downlevel_defaults
  | downlevel_webgl2_defaults

/-- Model of `wgpu::DeviceDescriptor`. -/
structure DeviceDescriptor where
  label : Option String
  features : Features
  limits : Limits

/-- Model of an opaque `wgpu::Adapter` handle. -/
structure Adapter where
  id : Nat

/-- Model of an opaque `wgpu::Device` handle. -/
structure Device where
  id : Nat

/-- Model of an opaque `wgpu::Queue` handle. -/
structure Queue where
  id : Nat

/-- Model of an opaque `wgpu::Instance` handle, recording the backends it
was created for. -/
structure Instance where
  backends : Backends

/-- Model of `wgpu::Instance::new`. -/
def Instance.new (b : Backends) : Instance := { backends := b }

/-- Model of `wgpu::RequestDeviceError`. -/
inductive RequestDeviceError where
  | mk

/-- Result of a Rust computation that may `panic!` via `unwrap()`: either an
unrecoverable panic (no error value a caller could handle or retry) or a
normal value. -/
inductive PanicOr (α : Type) where
  | panicked
  | ok (a : α)

/-- Model of `wgpu::BufferUsages` bitflags (the flags the repository uses). -/
structure BufferUsages where
  storage : Bool
  uniform : Bool
  copy_src : Bool
  copy_dst : Bool
  map_read : Bool
  map_write : Bool

/-- Bitwise-or of two usage flag sets (Rust `|`). -/
def BufferUsages.union (a b : BufferUsages) : BufferUsages where
  storage := a.storage || b.storage
  uniform := a.uniform || b.uniform
  copy_src := a.copy_src || b.copy_src
  copy_dst := a.copy_dst || b.copy_dst
  map_read := a.map_read || b.map_read
  map_write := a.map_write || b.map_write

/-- `wgpu::BufferUsages::STORAGE`. -/
def BufferUsages.STORAGE : BufferUsages :=
  { storage := true, uniform := false, copy_src := false, copy_dst := false,
    map_read := false, map_write := false }

/-- `wgpu::BufferUsages::COPY_SRC`. -/
def BufferUsages.COPY_SRC : BufferUsages :=
  { storage := false, uniform := false, copy_src := true, copy_dst := false,
    map_read := false, map_write := false }

/-- `wgpu::BufferUsages::COPY_DST`. -/
def BufferUsages.COPY_DST : BufferUsages :=
  { storage := false, uniform := false, copy_src := false, copy_dst := true,
    map_read := false, map_write := false }

/-- `wgpu::BufferUsages::MAP_READ`. -/
def BufferUsages.MAP_READ : BufferUsages :=
  { storage := false, uniform := false, copy_src := false, copy_dst := false,
    map_read := true, map_write := false }

/-- Model of `wgpu::BufferDescriptor`. -/
structure BufferDescriptor where
  label : Option String
  size : Nat
  usage : BufferUsages
  mapped_at_creation : Bool

/-- Model of `wgpu::util::BufferInitDescriptor`: an initialized-buffer
request carrying the initial byte contents. -/
structure BufferInitDescriptor where
  label : Option String
  contents : List Nat
  usage : BufferUsages

/-- Model of a device buffer allocation as returned by the external API:
it records the device it was allocated on, the requested label, byte size,
usage flags, whether it was mapped at creation, and (for initialized
allocations) the bytes it was seeded with at creation. -/
structure DeviceBuffer where
  device : Device
  label : Option String
  size : Nat
  usage : BufferUsages
  mapped_at_creation : Bool
  contents : Option (List Nat)

/-- Model of `wgpu::Device::create_buffer`: allocates exactly the requested
byte size with the requested usage; contents start uninitialized. -/
def Device.create_buffer (d : Device) (desc : BufferDescriptor) : DeviceBuffer where
  device := d
  label := desc.label
  size := desc.size
  usage := desc.usage
  mapped_at_creation := desc.mapped_at_creation
  contents := none

/-- Model of `wgpu::util::DeviceExt::create_buffer_init`: one call that
allocates a buffer of the byte size of `contents` and seeds it with those
bytes; the returned buffer is not mapped. -/
def Device.create_buffer_init (d : Device) (desc : BufferInitDescriptor) : DeviceBuffer where
  device := d
  label := desc.label
  size := desc.contents.length
  usage := desc.usage
  mapped_at_creation := false
  contents := some desc.contents

/-- Model of `wgpu::TextureFormat` as an opaque format tag. -/
structure TextureFormat where
  id : Nat

/-- Model of `wgpu::TextureDimension`. -/
inductive TextureDimension where
  | d1
  | d2
  | d3

/-- Model of `wgpu::TextureUsages` bitflags (the flags the repository uses). -/
structure TextureUsages where
  storage_binding : Bool
  texture_binding : Bool
  copy_src : Bool
  copy_dst : Bool

/-- Bitwise-or of two texture usage flag sets (Rust `|`). -/
def TextureUsages.union (a b : TextureUsages) : TextureUsages where
  storage_binding := a.storage_binding || b.storage_binding
  texture_binding := a.texture_binding || b.texture_binding
  copy_src := a.copy_src || b.copy_src
  copy_dst := a.copy_dst || b.copy_dst

/-- `wgpu::TextureUsages::STORAGE_BINDING`. -/
def TextureUsages.STORAGE_BINDING : TextureUsages :=
  { storage_binding := true, texture_binding := false, copy_src := false, copy_dst := false }

/-- `wgpu::TextureUsages::TEXTURE_BINDING`. -/
def TextureUsages.TEXTURE_BINDING : TextureUsages :=
  { storage_binding := false, texture_binding := true, copy_src := false, copy_dst := false }

/-- `wgpu::TextureUsages::COPY_SRC`. -/
def TextureUsages.COPY_SRC : TextureUsages :=
  { storage_binding := false, texture_binding := false, copy_src := true, copy_dst := false }

/-- `wgpu::TextureUsages::COPY_DST`. -/
def TextureUsages.COPY_DST : TextureUsages :=
  { storage_binding := false, texture_binding := false, copy_src := false, copy_dst := true }

/-- Model of `wgpu::Extent3d`. -/
structure Extent3d where
  width : Nat
  height : Nat
  depth_or_array_layers : Nat

/-- Model of `wgpu::TextureDescriptor`. -/
structure TextureDescriptor where
  label : Option String
  size : Extent3d
  dimension : TextureDimension
  mip_level_count : Nat
  sample_count : Nat
  format : TextureFormat
  usage : TextureUsages

/-- Model of a device texture allocation, recording its descriptor fields. -/
structure DeviceTexture where
  device : Device
  label : Option String
  size : Extent3d
  dimension : TextureDimension
  mip_level_count : Nat
  sample_count : Nat
  format : TextureFormat
  usage : TextureUsages

/-- Model of `wgpu::Device::create_texture`. -/
def Device.create_texture (d : Device) (desc : TextureDescriptor) : DeviceTexture where
  device := d
  label := desc.label
  size := desc.size
  dimension := desc.dimension
  mip_level_count := desc.mip_level_count
  sample_count := desc.sample_count
  format := desc.format
  usage := desc.usage

/-- Model of `wgpu::TextureViewDimension`. -/
inductive TextureViewDimension where
  | d1
  | d2
  | d2Array
  | cube
  | cubeArray
  | d3

/-- Model of `wgpu::TextureAspect`. -/
inductive TextureAspect where
  | all
  | stencilOnly
  | depthOnly

/-- Model of `wgpu::TextureViewDescriptor`. A field left `none` (or a base
of `0`) means the view covers the texture fully in that respect. -/
structure TextureViewDescriptor where
  label : Option String := none
  format : Option TextureFormat := none
  dimension : Option TextureViewDimension := none
  aspect : TextureAspect := TextureAspect.all
  base_mip_level : Nat := 0
  mip_level_count : Option Nat := none
  base_array_layer : Nat := 0
  array_layer_count : Option Nat := none

/-- Model of `wgpu::TextureViewDescriptor::default()`: every field at its
default, i.e. a full-extent view of the whole texture. -/
def TextureViewDescriptor.default : TextureViewDescriptor := {}

/-- Model of a texture view handle, recording the texture it views and the
descriptor it was created with. -/
structure TextureView where
  texture : DeviceTexture
  desc : TextureViewDescriptor

/-- Model of `wgpu::Texture::create_view`. -/
def DeviceTexture.create_view (t : DeviceTexture) (desc : TextureViewDescriptor) : TextureView where
  texture := t
  desc := desc

/-- Model of `wgpu::Maintain` (the argument of `Device::poll`). -/
inductive Maintain where
  | poll
  | wait

/-- Model of `wgpu::Device::poll`: drives pending work; the embedding
records which maintain mode the device was polled with. -/
def Device.poll (_d : Device) (m : Maintain) : Maintain := m

/-- Model of a compiled `wgpu::ShaderModule` handle. -/
structure ShaderModule where
  id : Nat

/-- Model of `std::marker::PhantomData<T>`: a zero-sized type tag. -/
structure PhantomData (T : Type) where
  mk ::

/-- Rust visibility of an item, as written in the source. -/
inductive Visibility where
  | pub
  | pub_crate
  | private_vis

/-- The `Framework` struct of gpgpu-rs: instance, device and queue handles.
The source field `instance` is named `inst` here because `instance` is a
reserved word in Lean. -/
structure Framework where
  inst : Instance
  device : Device
  queue : Queue

/-- The `GpuBuffer<T>` struct: back-reference to its `Framework`, the
device allocation, the byte size, and the phantom element-type marker. -/
structure GpuBuffer (T : Type) where
  fw : Framework
  storage : DeviceBuffer
  size : Nat
  _marker : PhantomData T

/-- The `GpuImage` struct: back-reference to its `Framework`, the device
texture, its format, its extent, and the cached full view. -/
structure GpuImage where
  fw : Framework
  texture : DeviceTexture
  format : TextureFormat
  size : Extent3d
  full_view : TextureView

/-- Placeholder for one accumulated `wgpu` bind-group-layout entry of a
`KernelBuilder` (its element type lives outside `framework.rs`; only the
emptiness of the sequence matters here). -/
structure LayoutEntry where
  id : Nat

/-- Placeholder for one accumulated bind-group descriptor of a
`KernelBuilder`. -/
structure DescriptorEntry where
  id : Nat

/-- Placeholder for one finalized bind group of a `KernelBuilder`. -/
structure BindGroupEntry where
  id : Nat

/-- The `KernelBuilder` struct as constructed by `framework.rs`. -/
structure KernelBuilder where
  fw : Framework
  layouts : List LayoutEntry
  descriptors : List DescriptorEntry
  sets : List BindGroupEntry
  shader : ShaderModule
  entry_point : String

/-- The `bytemuck::Pod` capability for an element type `T`: a byte size
and a byte encoding of each value, with every value encoding to exactly
`size_of` bytes (plain bytes, no padding ambiguity). -/
structure Pod (T : Type) where
  size_of : Nat
  bytes : T → List Nat
  bytes_length : ∀ x, (bytes x).length = size_of

/-- Model of `bytemuck::cast_slice`: the concatenated byte encodings of the
elements of the slice. -/
def cast_slice {T : Type} (p : Pod T) : List T → List Nat
  | [] => []
  | x :: xs => p.bytes x ++ cast_slice p xs

/-- The `RequestAdapterOptions` value built by `Framework::default` at
`src/framework.rs:12`: `HighPerformance` plus `..Default::default()`. -/
def default_request_adapter_options : RequestAdapterOptions where
  power_preference := PowerPreference.highPerformance
  force_fallback_adapter := false
  compatible_surface := none

/-- The `DeviceDescriptor` value built by `Framework::default` at
`src/framework.rs:21`. -/
def default_device_descriptor : DeviceDescriptor where
  label := none
  features := Features.empty
  limits := Limits.downlevel_defaults

/-- `impl Default for Framework` (`src/framework.rs:7`). Adapter and device
discovery are external capabilities, passed as oracles: `request_adapter`
may find no adapter (`Option`), `request_device` may fail
(`Except RequestDeviceError`). Both results are `unwrap`ped by the source,
so either failure is an unrecoverable panic, never an error value. -/
def Framework.default
    (request_adapter : Instance → RequestAdapterOptions → Option Adapter)
    (request_device : Adapter → DeviceDescriptor → Except RequestDeviceError (Device × Queue)) :
    PanicOr Framework :=
  let inst := Instance.new Backends.primary
  match request_adapter inst default_request_adapter_options with
  | none => PanicOr.panicked
  | some adapter =>
    match request_device adapter default_device_descriptor with
    | Except.error _ => PanicOr.panicked
    | Except.ok (device, queue) => PanicOr.ok { inst := inst, device := device, queue := queue }

/-- `Framework::new` (`src/framework.rs:48`): adopts the supplied handles
verbatim. -/
def Framework.new (inst : Instance) (device : Device) (queue : Queue) : Framework where
  inst := inst
  device := device
  queue := queue

/-- `Framework::create_kernel_builder` (`src/framework.rs:62`). Takes the
receiver by shared reference, returned unchanged as the first component. -/
def Framework.create_kernel_builder (fw : Framework) (shader : ShaderModule)
    (entry_point : String) : Framework × KernelBuilder :=
  (fw,
    { fw := fw
      layouts := []
      descriptors := []
      sets := []
      shader := shader
      entry_point := entry_point })

/-- `Framework::create_buffer` (`src/framework.rs:78`). -/
def Framework.create_buffer {T : Type} (fw : Framework) (p : Pod T) (len : Nat) :
    Framework × GpuBuffer T :=
  let size := len * p.size_of
  let storage := fw.device.create_buffer
    { label := none
      size := size
      usage := (BufferUsages.STORAGE.union BufferUsages.COPY_SRC).union BufferUsages.COPY_DST
      mapped_at_creation := false }
  (fw, { fw := fw, storage := storage, size := size, _marker := PhantomData.mk })

/-- `Framework::create_buffer_from_slice` (`src/framework.rs:102`). -/
def Framework.create_buffer_from_slice {T : Type} (fw : Framework) (p : Pod T) (data : List T) :
    Framework × GpuBuffer T :=
  let size := data.length * p.size_of
  let storage := fw.device.create_buffer_init
    { label := none
      contents := cast_slice p data
      usage := (BufferUsages.STORAGE.union BufferUsages.COPY_SRC).union BufferUsages.COPY_DST }
  (fw, { fw := fw, storage := storage, size := size, _marker := PhantomData.mk })

/-- The visibility of `Framework::create_staging_buffer` as written in the
source (`src/framework.rs:128`): `pub(crate)`, not part of the public
surface. -/
def create_staging_buffer_visibility : Visibility := Visibility.pub_crate

/-- `Framework::create_staging_buffer` (`src/framework.rs:128`): returns the
raw device buffer, not a `GpuBuffer`. -/
def Framework.create_staging_buffer (fw : Framework) (size : Nat) :
    Framework × DeviceBuffer :=
  (fw, fw.device.create_buffer
    { label := none
      size := size
      usage := BufferUsages.MAP_READ.union BufferUsages.COPY_DST
      mapped_at_creation := false })

/-- `Framework::create_image` (`src/framework.rs:138`). -/
def Framework.create_image (fw : Framework) (width height : Nat) (format : TextureFormat) :
    Framework × GpuImage :=
  let size : Extent3d := { width := width, height := height, depth_or_array_layers := 1 }
  let texture := fw.device.create_texture
    { label := none
      size := size
      dimension := TextureDimension.d2
      mip_level_count := 1
      sample_count := 1
      format := format
      usage := ((TextureUsages.STORAGE_BINDING.union TextureUsages.COPY_SRC).union
        TextureUsages.COPY_DST).union TextureUsages.TEXTURE_BINDING }
  let full_view := texture.create_view TextureViewDescriptor.default
  (fw, { fw := fw, texture := texture, format := format, size := size, full_view := full_view })

/-- `Framework::poll` (`src/framework.rs:170`): non-blocking poll. -/
def Framework.poll (fw : Framework) : Framework × Maintain :=
  (fw, fw.device.poll Maintain.poll)

/-- `Framework::blocking_poll` (`src/framework.rs:175`): blocking poll. -/
def Framework.blocking_poll (fw : Framework) : Framework × Maintain :=
  (fw, fw.device.poll Maintain.wait)

end Gpgpu

namespace Gpgpu

/-- Helper: `cast_slice` produces exactly `data.length * size_of` bytes,
since every element encodes to `size_of` bytes. -/
theorem cast_slice_length {T : Type} (p : Pod T) (data : List T) :
    (cast_slice p data).length = data.length * p.size_of := by
  induction data with
  | nil => simp [cast_slice]
  | cons x xs ih =>
      simp only [cast_slice, List.length_append, List.length_cons, ih, p.bytes_length]
      ring

/-- C1: `Framework::default` selects a high-performance adapter, requests a
device with the empty feature set and the downlevel (portable) limits, and
unwraps both discovery results: if no adapter or device is obtainable the
construction panics (unrecoverable), and it never yields a recoverable
error value — the only outcomes are a panic or a fully constructed
`Framework` holding the discovered device and queue. -/
theorem default_construction
    (ra : Instance → RequestAdapterOptions → Option Adapter)
    (rd : Adapter → DeviceDescriptor → Except RequestDeviceError (Device × Queue)) :
    default_request_adapter_options.power_preference = PowerPreference.highPerformance ∧
    default_device_descriptor.features = Features.empty ∧
    default_device_descriptor.limits = Limits.downlevel_defaults ∧
    (Framework.default ra rd = PanicOr.panicked ↔
      ra (Instance.new Backends.primary) default_request_adapter_options = none ∨
      ∃ a e, ra (Instance.new Backends.primary) default_request_adapter_options = some a ∧
        rd a default_device_descriptor = Except.error e) ∧
    (∀ fw, Framework.default ra rd = PanicOr.ok fw ↔
      fw.inst = Instance.new Backends.primary ∧
      ∃ a, ra (Instance.new Backends.primary) default_request_adapter_options = some a ∧
        rd a default_device_descriptor = Except.ok (fw.device, fw.queue)) := by
  rcases h : ra (Instance.new Backends.primary) default_request_adapter_options with _ | a
  · refine ⟨rfl, rfl, rfl, ?_, ?_⟩
    · simp [Framework.default, h]
    · intro fw
      simp [Framework.default, h]
  · rcases h2 : rd a default_device_descriptor with e | dq
    · refine ⟨rfl, rfl, rfl, ?_, ?_⟩
      · simp [Framework.default, h, h2]
        exact ⟨e, trivial⟩
      · intro fw
        simp [Framework.default, h, h2]
    · obtain ⟨d, q⟩ := dq
      refine ⟨rfl, rfl, rfl, ?_, ?_⟩
      · simp [Framework.default, h, h2]
      · intro fw
        obtain ⟨fi, fd, fq⟩ := fw
        simp only [Framework.default, h, h2]
        constructor
        · intro hok
          cases hok
          exact ⟨rfl, a, rfl, h2⟩
        · rintro ⟨hi, a2, ha2, hrd⟩
          cases ha2
          rw [h2] at hrd
          cases hrd
          cases hi
          rfl

/-- C2: for every Pod element type, `create_buffer` of `len` elements and
`create_buffer_from_slice` of a slice `data` both store byte size
`element_count * size_of` on the returned `GpuBuffer`, and the device
allocation is requested with exactly that byte size. -/
theorem buffer_byte_size {T : Type} (p : Pod T) (fw : Framework) (len : Nat) (data : List T) :
    (fw.create_buffer p len).2.size = len * p.size_of ∧
    (fw.create_buffer p len).2.storage.size = len * p.size_of ∧
    (fw.create_buffer_from_slice p data).2.size = data.length * p.size_of ∧
    (fw.create_buffer_from_slice p data).2.storage.size = data.length * p.size_of := by
  refine ⟨rfl, rfl, rfl, ?_⟩
  simp [Framework.create_buffer_from_slice, Device.create_buffer_init, cast_slice_length]

/-- C3: `create_image` allocates a 2D texture of extent
`width x height x 1` whose usage permits storage binding and copy
source/destination, and the returned image carries the full-extent default
view created at construction time. -/
theorem image_creation (fw : Framework) (w h : Nat) (f : TextureFormat) :
    (fw.create_image w h f).2.size = { width := w, height := h, depth_or_array_layers := 1 } ∧
    (fw.create_image w h f).2.texture.size =
      { width := w, height := h, depth_or_array_layers := 1 } ∧
    (fw.create_image w h f).2.texture.dimension = TextureDimension.d2 ∧
    (fw.create_image w h f).2.texture.usage.storage_binding = true ∧
    (fw.create_image w h f).2.texture.usage.copy_src = true ∧
    (fw.create_image w h f).2.texture.usage.copy_dst = true ∧
    (fw.create_image w h f).2.full_view =
      (fw.create_image w h f).2.texture.create_view TextureViewDescriptor.default ∧
    (fw.create_image w h f).2.full_view.desc.base_mip_level = 0 ∧
    (fw.create_image w h f).2.full_view.desc.mip_level_count = none ∧
    (fw.create_image w h f).2.full_view.desc.base_array_layer = 0 ∧
    (fw.create_image w h f).2.full_view.desc.array_layer_count = none :=
  ⟨rfl, rfl, rfl, rfl, rfl, rfl, rfl, rfl, rfl, rfl, rfl⟩

/-- C4: `create_kernel_builder` returns a builder in the Empty state: its
layout-entry, bind-group-descriptor and finalized-bind-group sequences are
all empty; it is scoped to this `Framework`, holds the given shader, and
records the given entry-point name. -/
theorem kernel_builder_empty (fw : Framework) (shader : ShaderModule) (ep : String) :
    (fw.create_kernel_builder shader ep).2.layouts = [] ∧
    (fw.create_kernel_builder shader ep).2.descriptors = [] ∧
    (fw.create_kernel_builder shader ep).2.sets = [] ∧
    (fw.create_kernel_builder shader ep).2.fw = fw ∧
    (fw.create_kernel_builder shader ep).2.shader = shader ∧
    (fw.create_kernel_builder shader ep).2.entry_point = ep :=
  ⟨rfl, rfl, rfl, rfl, rfl, rfl⟩

/-- C5: `create_buffer_from_slice data` performs the same allocation as
`create_buffer data.length` — same device byte size, same usage flags,
same stored byte size — but additionally seeds the allocation with the
bytes of `data` in the single creation call, whereas `create_buffer`
leaves the contents unseeded. -/
theorem from_slice_same_allocation {T : Type} (p : Pod T) (fw : Framework) (data : List T) :
    (fw.create_buffer_from_slice p data).2.storage.size =
      (fw.create_buffer p data.length).2.storage.size ∧
    (fw.create_buffer_from_slice p data).2.storage.usage =
      (fw.create_buffer p data.length).2.storage.usage ∧
    (fw.create_buffer_from_slice p data).2.size = (fw.create_buffer p data.length).2.size ∧
    (fw.create_buffer_from_slice p data).2.storage.usage.storage = true ∧
    (fw.create_buffer_from_slice p data).2.storage.usage.copy_src = true ∧
    (fw.create_buffer_from_slice p data).2.storage.usage.copy_dst = true ∧
    (fw.create_buffer_from_slice p data).2.storage.contents = some (cast_slice p data) ∧
    (fw.create_buffer p data.length).2.storage.contents = none := by
  refine ⟨?_, rfl, rfl, rfl, rfl, rfl, rfl, rfl⟩
  simp [Framework.create_buffer_from_slice, Framework.create_buffer, Device.create_buffer_init,
    Device.create_buffer, cast_slice_length]

/-- C6: `create_buffer` returns a `GpuBuffer` back-referencing this
`Framework`, usable as storage and as copy source/destination, with no
contents seeded at creation and not mapped at creation. -/
theorem create_buffer_uninitialized {T : Type} (p : Pod T) (fw : Framework) (len : Nat) :
    (fw.create_buffer p len).2.fw = fw ∧
    (fw.create_buffer p len).2.storage.usage.storage = true ∧
    (fw.create_buffer p len).2.storage.usage.copy_src = true ∧
    (fw.create_buffer p len).2.storage.usage.copy_dst = true ∧
    (fw.create_buffer p len).2.storage.contents = none ∧
    (fw.create_buffer p len).2.storage.mapped_at_creation = false :=
  ⟨rfl, rfl, rfl, rfl, rfl, rfl⟩

/-- A concrete `Framework` value for concrete evaluations. -/
def fw0 : Framework :=
  Framework.new (Instance.new Backends.primary) { id := 0 } { id := 0 }

/-- C7 counterexample: `create_image` performs no positivity check, so the
image created with width 0 violates the claimed invariant
`width > 0 ∧ height > 0`. -/
theorem image_zero_width_counterexample :
    ¬ (0 < (fw0.create_image 0 4 { id := 0 }).2.size.width ∧
       0 < (fw0.create_image 0 4 { id := 0 }).2.size.height) := by
  decide

/-- C7 (amended): `create_image` stores the caller's width and height
verbatim (so `width > 0 ∧ height > 0` holds exactly when the caller passes
positive values — the code itself enforces no positivity check), and the
stored pixel format is exactly the construction-time format, which no
operation of `framework.rs` modifies. -/
theorem image_dims_and_format (fw : Framework) (w h : Nat) (f : TextureFormat)
    (hw : 0 < w) (hh : 0 < h) :
    (fw.create_image w h f).2.size.width = w ∧
    (fw.create_image w h f).2.size.height = h ∧
    0 < (fw.create_image w h f).2.size.width ∧
    0 < (fw.create_image w h f).2.size.height ∧
    (fw.create_image w h f).2.format = f ∧
    (fw.create_image w h f).2.texture.format = f :=
  ⟨rfl, rfl, hw, hh, rfl, rfl⟩

/-- C7 witness: the amended theorem instantiated at width 3, height 2. -/
theorem image_dims_and_format_witness :
    (fw0.create_image 3 2 { id := 7 }).2.size.width = 3 ∧
    (fw0.create_image 3 2 { id := 7 }).2.size.height = 2 ∧
    0 < (fw0.create_image 3 2 { id := 7 }).2.size.width ∧
    0 < (fw0.create_image 3 2 { id := 7 }).2.size.height ∧
    (fw0.create_image 3 2 { id := 7 }).2.format = { id := 7 } ∧
    (fw0.create_image 3 2 { id := 7 }).2.texture.format = { id := 7 } :=
  image_dims_and_format fw0 3 2 { id := 7 } (by decide) (by decide)

/-- C8: `create_staging_buffer` is crate-private in the source, and for
every size it requests a buffer of exactly that byte size usable only for
map-read and as a copy destination — not as storage, not as a copy source,
not for uniform use, not map-write — and not mapped at creation. -/
theorem staging_buffer_internal (fw : Framework) (size : Nat) :
    create_staging_buffer_visibility = Visibility.pub_crate ∧
    (fw.create_staging_buffer size).2.size = size ∧
    (fw.create_staging_buffer size).2.usage = BufferUsages.MAP_READ.union BufferUsages.COPY_DST ∧
    (fw.create_staging_buffer size).2.usage.map_read = true ∧
    (fw.create_staging_buffer size).2.usage.copy_dst = true ∧
    (fw.create_staging_buffer size).2.usage.storage = false ∧
    (fw.create_staging_buffer size).2.usage.copy_src = false ∧
    (fw.create_staging_buffer size).2.usage.uniform = false ∧
    (fw.create_staging_buffer size).2.usage.map_write = false ∧
    (fw.create_staging_buffer size).2.mapped_at_creation = false :=
  ⟨rfl, rfl, rfl, rfl, rfl, rfl, rfl, rfl, rfl, rfl⟩

/-- C9: creating a zero-length buffer succeeds (the creation functions are
total) and yields byte size 0, both on the `GpuBuffer` and in the device
allocation, for `create_buffer 0` and for `create_buffer_from_slice` on an
empty slice. -/
theorem zero_length_buffer {T : Type} (p : Pod T) (fw : Framework) :
    (fw.create_buffer p 0).2.size = 0 ∧
    (fw.create_buffer p 0).2.storage.size = 0 ∧
    (fw.create_buffer_from_slice p ([] : List T)).2.size = 0 ∧
    (fw.create_buffer_from_slice p ([] : List T)).2.storage.size = 0 := by
  refine ⟨?_, ?_, ?_, rfl⟩ <;>
    simp [Framework.create_buffer, Framework.create_buffer_from_slice, Device.create_buffer]

/-- C10: every operation of the `Framework` takes the receiver by shared
reference and leaves its three fields — instance, device and queue —
unchanged; in particular `poll` and `blocking_poll` modify no field. -/
theorem framework_ops_frame {T : Type} (p : Pod T) (fw : Framework)
    (len size width height : Nat) (data : List T) (format : TextureFormat)
    (shader : ShaderModule) (ep : String) :
    ((fw.create_buffer p len).1.inst = fw.inst ∧
      (fw.create_buffer p len).1.device = fw.device ∧
      (fw.create_buffer p len).1.queue = fw.queue) ∧
    ((fw.create_buffer_from_slice p data).1.inst = fw.inst ∧
      (fw.create_buffer_from_slice p data).1.device = fw.device ∧
      (fw.create_buffer_from_slice p data).1.queue = fw.queue) ∧
    ((fw.create_staging_buffer size).1.inst = fw.inst ∧
      (fw.create_staging_buffer size).1.device = fw.device ∧
      (fw.create_staging_buffer size).1.queue = fw.queue) ∧
    ((fw.create_image width height format).1.inst = fw.inst ∧
      (fw.create_image width height format).1.device = fw.device ∧
      (fw.create_image width height format).1.queue = fw.queue) ∧
    ((fw.create_kernel_builder shader ep).1.inst = fw.inst ∧
      (fw.create_kernel_builder shader ep).1.device = fw.device ∧
      (fw.create_kernel_builder shader ep).1.queue = fw.queue) ∧
    (fw.poll.1.inst = fw.inst ∧ fw.poll.1.device = fw.device ∧ fw.poll.1.queue = fw.queue) ∧
    (fw.blocking_poll.1.inst = fw.inst ∧ fw.blocking_poll.1.device = fw.device ∧
      fw.blocking_poll.1.queue = fw.queue) :=
  ⟨⟨rfl, rfl, rfl⟩, ⟨rfl, rfl, rfl⟩, ⟨rfl, rfl, rfl⟩, ⟨rfl, rfl, rfl⟩, ⟨rfl, rfl, rfl⟩,
    ⟨rfl, rfl, rfl⟩, ⟨rfl, rfl, rfl⟩⟩

end Gpgpu
